import Mathlib

/-
Verification development for the scvi-tutorials repository.

The repository consists of two notebooks:
  * `src/unnamed/part_000` ("Constructing a high-level model"): builds a
    simplified `SCVI` model class with `setup_anndata`, demonstrates the
    `AnnDataManager` store (`_setup_adata_manager_store`,
    `_per_instance_manager_store`), the `_validate_anndata` replay protocol
    and defines `get_latent_representation`.
  * `src/hub/minification.ipynb`: demonstrates the data-minification
    feature (`minify_adata`, `minified_data_type`, `_is_minified`,
    save/load round trips, and the failure when loading a non-minified
    model registry against a minified dataset).

The registration / manager-store / validation / minification machinery
itself lives in the external scvi-tools library; the notebooks call it and
record its behaviour.  Where a definition below embeds code that appears
verbatim in the notebooks (e.g. `get_latent_representation`, the field list
of `SCVI.setup_anndata`) the doc comment names the source location.  The
remaining operations are modelled from the specification (spec.md sections
3, 4, 6) and cross-checked against the recorded notebook outputs; their doc
comments start with "Modelled from the spec:".
-/

namespace Scvi

/-- A sparse payload (count matrix): shape plus explicitly stored entries.
This models the CSR matrices used by the notebooks, where minification
replaces a matrix by a zero-stored-element matrix of the same shape. -/
structure Payload where
  rows : Nat
  cols : Nat
  entries : List (Nat × Nat × Int)
deriving DecidableEq

/-- Number of stored elements of a sparse payload. -/
def Payload.storedElements (p : Payload) : Nat := p.entries.length

/-- A zero-stored-element placeholder with the same shape as `p`. -/
def emptyLike (p : Payload) : Payload := ⟨p.rows, p.cols, []⟩

/-- Association-list lookup (first match wins, so that prepending an entry
realizes "last write wins"). -/
def alookup {α β : Type} [DecidableEq α] (k : α) : List (α × β) → Option β
  | [] => none
  | (a, b) :: rest => if a = k then some b else alookup k rest

/-- The kinds of field descriptors used by the notebooks' `setup_anndata`
(layer, categorical obs, numerical obs, joint categorical/numerical obs)
plus the obsm / string-uns kinds used by the minification fields. -/
inductive FieldKind where
  | layer
  | categorical
  | numerical
  | jointCategorical
  | jointNumerical
  | obsm
  | stringUns
deriving DecidableEq

/-- One field descriptor: registry key, optional source locator
(layer / obs column / obsm key), required flag and kind (spec section 3). -/
structure FieldDescriptor where
  registryKey : String
  attrKey : Option String
  required : Bool
  kind : FieldKind
deriving DecidableEq

/-- A Registry: the ordered field descriptors plus the recorded setup
method arguments (`batch_key` and `layer`) used to build them
(spec section 3, and `setup_method_args` in src/unnamed/part_000). -/
structure Registry where
  fields : List FieldDescriptor
  batch_key : Option String
  layer : Option String
deriving DecidableEq

/-- The dataset (AnnData) model: shape, primary payload `X`, named layers,
the `raw` alternate full-data view, user categorical obs columns, reserved
derived code columns (`_scvi_batch`, ...), reserved numeric obs columns
(`_scvi_observed_lib_size`), obsm arrays (latent posterior parameters), and
the dataset-local metadata: `_scvi_uuid`, `_scvi_manager_uuid` and the
minification marker `_scvi_adata_minify_type`.  The marker is
`Option (Option String)`: absent, or present holding `none` or a
minification-type string. -/
structure AnnData where
  n_obs : Nat
  n_vars : Nat
  X : Payload
  layers : List (String × Payload)
  raw : Option Payload
  obsCat : List (String × List String)
  obsDerived : List (String × List Nat)
  obsNum : List (String × List Int)
  obsm : List (String × List Int)
  scviUUID : Option Nat
  managerUUID : Option Nat
  minifyType : Option (Option String)
deriving DecidableEq

/-- A Manager: unique identifier, the identity of the dataset it
registered, the Registry used, the per-field state (for categorical fields
the category-to-code mapping, i.e. the list of categories in first-seen
order; an empty state for the other kinds), and the variable count recorded
at registration time (spec section 3). -/
structure Manager where
  id : Nat
  adataUUID : Nat
  registry : Registry
  summaries : List (String × List String)
  nVars : Nat
deriving DecidableEq

/-- The process-wide manager store: the global index keyed by (model-class
identity, dataset identity), the per-instance index keyed by (model-instance
identity, dataset identity), and a counter supplying fresh identifiers
(spec section 3, and the `_setup_adata_manager_store` /
`_per_instance_manager_store` dictionaries of src/unnamed/part_000). -/
structure ManagerStore where
  globalIdx : List ((Nat × Nat) × Manager)
  instanceIdx : List ((Nat × Nat) × Manager)
  nextId : Nat
deriving DecidableEq

/-- A model instance: class identity, instance identity, the bound dataset
and its manager, training flag, minified-mode capability and opaque trained
weights (spec sections 2 and 3). -/
structure Model where
  classId : Nat
  instanceId : Nat
  adata : AnnData
  adataManager : Manager
  isTrained : Bool
  minifiedModeCapable : Bool
  weights : Nat
deriving DecidableEq

/-- The error taxonomy of spec section 7, plus the variable-count mismatch
raised when transferring a registration to a dataset of different width and
the runtime error raised by `get_latent_representation` on an untrained
model (src/unnamed/part_000). -/
inductive ScviError where
  | missingRequiredField (fieldName : String)
  | unseenCategory (value : String)
  | unregisteredDataset
  | unsupportedMinifiedData
  | schemaMismatch (key : String)
  | varCountMismatch
  | runtimeNotTrained (msg : String)
deriving DecidableEq

/-- Log events: the informational transfer event emitted when a dataset
never registered with the model class is set up automatically
("Input AnnData not setup with scvi-tools. attempting to transfer AnnData
setup" in both notebooks). -/
inductive LogEvent where
  | infoTransfer
deriving DecidableEq

/-- Index of a value in a category mapping: the code the mapping assigns. -/
def idxOf (mapping : List String) (v : String) : Option Nat :=
  match mapping with
  | [] => none
  | a :: rest => if a = v then some 0 else (idxOf rest v).map (· + 1)

/-- The code a category-to-code mapping assigns to a value. -/
def codeOf (mapping : List String) (v : String) : Nat :=
  (idxOf mapping v).getD 0

/-- Categories of a column in first-seen order (the mapping inferred at
initial registration; spec section 8, concrete scenario). -/
def firstSeenAux (acc : List String) : List String → List String
  | [] => acc
  | v :: vs => if v ∈ acc then firstSeenAux acc vs else firstSeenAux (acc ++ [v]) vs

/-- Categories of a column in first-seen order. -/
def firstSeen (vals : List String) : List String := firstSeenAux [] vals

/-- Encode a column of categorical values with a fixed category-to-code
mapping; a value absent from the mapping fails with `UnseenCategoryError`
naming the value (spec sections 4.4 and 7). -/
def encodeWith (mapping : List String) : List String → Except ScviError (List Nat)
  | [] => .ok []
  | v :: vs =>
    match idxOf mapping v with
    | none => .error (.unseenCategory v)
    | some c =>
      match encodeWith mapping vs with
      | .error e => .error e
      | .ok cs => .ok (c :: cs)

/-- Modelled from the spec: registration of a single field descriptor
(spec section 4.2; the concrete field behaviours follow the scvi-tools
`LayerField` / `CategoricalObsField` / `NumericalObsField` /
`*JointObsField` / `ObsmField` / `StringUnsField` classes, which are not in
src/).  `src = none` is an initial registration: a categorical mapping is
inferred in first-seen order.  `src = some mgr` is a transfer/replay: the
per-field state is looked up in the source manager's registries (missing
state fails with the mismatch error naming the missing expected key
`state_registry`, as demonstrated in src/hub/minification.ipynb) and the
stored category-to-code mapping is reused; a value outside it fails with
`UnseenCategoryError`.  Returns the summary entries and the reserved derived
obs columns this field contributes. -/
def processField (src : Option Manager) (adata : AnnData) (f : FieldDescriptor) :
    Except ScviError (List (String × List String) × List (String × List Nat)) :=
  match (match src with
         | none => Except.ok (none : Option (List String))
         | some mgr =>
           match alookup f.registryKey mgr.summaries with
           | none => Except.error (ScviError.schemaMismatch "state_registry")
           | some st => Except.ok (some st)) with
  | .error e => .error e
  | .ok st? =>
    match f.kind with
    | .layer =>
      match f.attrKey with
      | none => .ok ([(f.registryKey, [])], [])
      | some k =>
        match alookup k adata.layers with
        | none => if f.required then .error (.missingRequiredField f.registryKey)
                  else .ok ([(f.registryKey, [])], [])
        | some _ => .ok ([(f.registryKey, [])], [])
    | .categorical =>
      match (match f.attrKey with
             | some k => alookup k adata.obsCat
             | none => some (List.replicate adata.n_obs "0")) with
      | none => .error (.missingRequiredField f.registryKey)
      | some vs =>
        match encodeWith (match st? with | none => firstSeen vs | some st => st) vs with
        | .error e => .error e
        | .ok codes =>
          .ok ([(f.registryKey, (match st? with | none => firstSeen vs | some st => st))],
               [("_scvi_" ++ f.registryKey, codes)])
    | .numerical =>
      match f.attrKey with
      | none => if f.required then .error (.missingRequiredField f.registryKey)
                else .ok ([(f.registryKey, [])], [])
      | some k =>
        match alookup k adata.obsNum with
        | none => if f.required then .error (.missingRequiredField f.registryKey)
                  else .ok ([(f.registryKey, [])], [])
        | some _ => .ok ([(f.registryKey, [])], [])
    | .jointCategorical =>
      match f.attrKey with
      | none => .ok ([(f.registryKey, [])], [])
      | some k =>
        match alookup k adata.obsm with
        | none => .error (.missingRequiredField f.registryKey)
        | some _ => .ok ([(f.registryKey, [])], [])
    | .jointNumerical =>
      match f.attrKey with
      | none => .ok ([(f.registryKey, [])], [])
      | some k =>
        match alookup k adata.obsm with
        | none => .error (.missingRequiredField f.registryKey)
        | some _ => .ok ([(f.registryKey, [])], [])
    | .obsm =>
      match f.attrKey with
      | none => .ok ([(f.registryKey, [])], [])
      | some k =>
        match alookup k adata.obsm with
        | none => if f.required then .error (.missingRequiredField f.registryKey)
                  else .ok ([(f.registryKey, [])], [])
        | some _ => .ok ([(f.registryKey, [])], [])
    | .stringUns =>
      match adata.minifyType with
      | some (some _) => .ok ([(f.registryKey, [])], [])
      | _ => if f.required then .error (.missingRequiredField f.registryKey)
             else .ok ([(f.registryKey, [])], [])

/-- Modelled from the spec: registration of a field list, in order
(spec section 4.2: "For each Field Descriptor in order").  Accumulates the
per-field summaries and the reserved derived obs columns. -/
def processFields (src : Option Manager) (adata : AnnData) :
    List FieldDescriptor →
    Except ScviError (List (String × List String) × List (String × List Nat))
  | [] => .ok ([], [])
  | f :: fs =>
    match processField src adata f with
    | .error e => .error e
    | .ok r =>
      match processFields src adata fs with
      | .error e => .error e
      | .ok rest => .ok (r.1 ++ rest.1, r.2 ++ rest.2)

/-- Variable-count compatibility of a transfer target with the source
manager (spec section 4.4: "same variable count"). -/
def varCountOk (src : Option Manager) (adata : AnnData) : Bool :=
  match src with
  | none => true
  | some mgr => mgr.nVars == adata.n_vars

/-- Modelled from the spec: `register(registry, dataset)` (spec section
4.2, scvi-tools `AnnDataManager.register_fields`, not in src/).  Runs every
field descriptor, writes the reserved derived columns onto the dataset,
assigns a fresh manager identifier `mid`, stamps the dataset with its
dataset identity (keeping an existing one, else using `duid`) and with the
new manager identifier, and returns the new Manager.  With `src = some mgr`
this is a transfer/replay reusing the stored field state. -/
def register_fields (reg : Registry) (src : Option Manager) (adata : AnnData)
    (mid duid : Nat) : Except ScviError (Manager × AnnData) :=
  if varCountOk src adata then
    match processFields src adata reg.fields with
    | .error e => .error e
    | .ok pr =>
      .ok (⟨mid, adata.scviUUID.getD duid, reg, pr.1, adata.n_vars⟩,
           { adata with
              obsDerived := pr.2,
              scviUUID := some (adata.scviUUID.getD duid),
              managerUUID := some mid })
  else .error .varCountMismatch

/-- Modelled from the spec: `register_manager(model_class, manager)`
inserts into the global index keyed by the dataset identity found on the
manager; last write wins (spec section 4.3). -/
def register_manager (classId : Nat) (m : Manager) (s : ManagerStore) : ManagerStore :=
  { s with globalIdx := ((classId, m.adataUUID), m) :: s.globalIdx }

/-- Modelled from the spec: `get_from_registry(model_class, dataset)` looks
up the dataset's identity in the global index; fails with
`UnregisteredDatasetError` if no entry exists (spec section 4.3). -/
def get_from_registry (classId : Nat) (s : ManagerStore) (adata : AnnData) :
    Except ScviError Manager :=
  match adata.scviUUID with
  | none => .error .unregisteredDataset
  | some u =>
    match alookup (classId, u) s.globalIdx with
    | none => .error .unregisteredDataset
    | some m => .ok m

/-- Modelled from the spec: `associate_instance(model_instance, manager)`
inserts into the per-instance index (spec section 4.3). -/
def associate_instance (model : Model) (m : Manager) (s : ManagerStore) : ManagerStore :=
  { s with instanceIdx := ((model.instanceId, m.adataUUID), m) :: s.instanceIdx }

/-- Whether a dataset is minified: its minification marker is present and
non-none (scvi-tools `_is_minified`, demonstrated in
src/hub/minification.ipynb). -/
def is_minified (adata : AnnData) : Bool :=
  match adata.minifyType with
  | some (some _) => true
  | _ => false

/-- Modelled from the spec: a dataset with a non-none minification marker
may only be used by a minified-mode capable model; otherwise
`UnsupportedMinifiedDataError` (spec sections 4.4 step 4 and 7). -/
def check_minified (model : Model) (adata : AnnData) : Except ScviError Unit :=
  if is_minified adata && !model.minifiedModeCapable then .error .unsupportedMinifiedData
  else .ok ()

/-- Modelled from the spec: the automatic-registration branch of the
Validation/Replay protocol — the candidate dataset was never registered
with this model class's schema, so its setup is transferred from the
model's original Registry, logged as an informational transfer event
("Input AnnData not setup with scvi-tools. attempting to transfer AnnData
setup" in src/unnamed/part_000), the new Manager is stored, and the
dataset is stamped with fresh identifiers (spec section 4.4 step 2, first
bullet). -/
def validate_transfer (model : Model) (adata : AnnData) (s : ManagerStore) :
    Except ScviError (AnnData × Manager × ManagerStore × List LogEvent) :=
  match register_fields model.adataManager.registry (some model.adataManager)
          adata s.nextId (s.nextId + 1) with
  | .error e => .error e
  | .ok (m, adata') =>
    match check_minified model adata' with
    | .error e => .error e
    | .ok _ =>
      .ok (adata', m,
           associate_instance model m
             (register_manager model.classId m { s with nextId := s.nextId + 2 }),
           [.infoTransfer])

/-- Modelled from the spec: the Validation/Replay protocol
`validate_dataset(model_instance, candidate_dataset | none)` (spec section
4.4; scvi-tools `_validate_anndata`, which src/unnamed/part_000 documents
and demonstrates but does not define).
1. `none`: return the originally bound dataset and its Manager.
2. No dataset identity stamped (never registered), or no Manager recorded
   for this (model instance, dataset identity) pair in the model class's
   per-instance store: automatic registration transferring the model's
   original Registry, logged as an informational transfer event.
3. A Manager is found but the stamped manager identifier differs from its
   identifier (another registration clobbered the reserved derived
   columns): replay registration with the stored Registry, restamp and
   store a fresh Manager.
4. Manager found and matching: reuse the stored Manager.
In every case the resulting Manager is associated with the model instance,
and a minified dataset is rejected unless the model is capable. -/
def validate_dataset (model : Model) (cand : Option AnnData) (s : ManagerStore) :
    Except ScviError (AnnData × Manager × ManagerStore × List LogEvent) :=
  match cand with
  | none => .ok (model.adata, model.adataManager, s, [])
  | some adata =>
    match adata.scviUUID with
    | none => validate_transfer model adata s
    | some u =>
      match alookup (model.instanceId, u) s.instanceIdx with
      | none => validate_transfer model adata s
      | some mgr =>
        if adata.managerUUID = some mgr.id then
          match check_minified model adata with
          | .error e => .error e
          | .ok _ => .ok (adata, mgr, associate_instance model mgr s, [])
        else
          match register_fields mgr.registry (some mgr) adata s.nextId (s.nextId + 1) with
          | .error e => .error e
          | .ok (m, adata') =>
            match check_minified model adata' with
            | .error e => .error e
            | .ok _ =>
              .ok (adata', m,
                   associate_instance model m
                     (register_manager model.classId m { s with nextId := s.nextId + 2 }),
                   [])

/-- The field descriptors registered by `SCVI.setup_anndata`, translated
from src/unnamed/part_000: a `LayerField` for `X` (with the `layer`
argument), a `CategoricalObsField` for `batch` (with the `batch_key`
argument), dummy `CategoricalObsField` for `labels`, a non-required
`NumericalObsField` for `size_factor`, and empty joint covariate fields. -/
def scviAnndataFields (batch_key layer : Option String) : List FieldDescriptor :=
  [ ⟨"X", layer, true, .layer⟩,
    ⟨"batch", batch_key, true, .categorical⟩,
    ⟨"labels", none, true, .categorical⟩,
    ⟨"size_factor", none, false, .numerical⟩,
    ⟨"extra_categorical_covs", none, true, .jointCategorical⟩,
    ⟨"extra_continuous_covs", none, true, .jointNumerical⟩ ]

/-- Modelled from the spec: the extra field descriptors a minified-mode
capable model registers for a minified dataset — the cached posterior mean
and variance obsm fields, the per-observation library-size cache and the
minification-marker field (spec sections 3 and 6; scvi-tools
`_get_fields_for_adata_minification`, not in src/). -/
def minificationFields : List FieldDescriptor :=
  [ ⟨"latent_qzm", some "_scvi_latent_qzm", true, .obsm⟩,
    ⟨"latent_qzv", some "_scvi_latent_qzv", true, .obsm⟩,
    ⟨"observed_lib_size", some "_scvi_observed_lib_size", true, .numerical⟩,
    ⟨"minify_type", none, true, .stringUns⟩ ]

/-- The field list `setup_anndata` registers for a given dataset: the base
SCVI fields, plus the minification fields when the dataset is minified
(scvi-tools `SCVI.setup_anndata`, used by `load`; not in src/, modelled
from the spec's persisted-state description in section 6). -/
def setupFields (batch_key layer : Option String) (adata : AnnData) :
    List FieldDescriptor :=
  scviAnndataFields batch_key layer ++
    (if is_minified adata then minificationFields else [])

/-- `SCVI.setup_anndata` from src/unnamed/part_000: builds the field
descriptors, registers them on the dataset, and stores the new manager in
the class-level store. -/
def setup_anndata (classId : Nat) (batch_key layer : Option String)
    (adata : AnnData) (s : ManagerStore) :
    Except ScviError (AnnData × Manager × ManagerStore) :=
  match register_fields ⟨scviAnndataFields batch_key layer, batch_key, layer⟩
          none adata s.nextId (s.nextId + 1) with
  | .error e => .error e
  | .ok (m, adata') =>
    .ok (adata', m, register_manager classId m { s with nextId := s.nextId + 2 })

/-- Sum of the stored entries of each row of a payload: the per-observation
library sizes computed from the full counts. -/
def rowSums (p : Payload) : List Int :=
  (List.range p.rows).map
    (fun i => ((p.entries.filter (fun e => e.1 = i)).map (fun e => e.2.2)).sum)

/-- The registered count data of a dataset: the layer named by the
registry's `layer` argument, else the primary payload `X` (the `LayerField`
of src/unnamed/part_000). -/
def countsOf (reg : Registry) (adata : AnnData) : Payload :=
  match reg.layer with
  | none => adata.X
  | some k => (alookup k adata.layers).getD adata.X

/-- Modelled from the spec: the minified copy of a dataset (scvi-tools
`get_minified_adata_scrna`, not in src/; behaviour cross-checked against
the outputs recorded in src/hub/minification.ipynb).  The primary payload
and every layer are replaced by zero-stored-element placeholders of
identical shape, the `raw` alternate view is removed (the notebook shows
`model.adata.raw is None` evaluating to `True` after minification), the
minification marker is set to `latent_posterior_parameters`, and the scvi
identity stamps are cleared so that a new dataset identity is assigned on
re-registration (spec section 4.5 effect (e)). -/
def get_minified_adata (adata : AnnData) : AnnData :=
  { adata with
     X := emptyLike adata.X,
     layers := adata.layers.map (fun p => (p.1, emptyLike p.2)),
     raw := none,
     minifyType := some (some "latent_posterior_parameters"),
     scviUUID := none,
     managerUUID := none }

/-- Modelled from the spec: the new minified dataset built by `minify`
before re-registration — the emptied copy of the bound dataset with the
caller-computed posterior mean, posterior variance and the per-observation
library-size cache (computed from the original full counts) copied into the
reserved slots (spec section 4.5, effects (a)-(d)). -/
def minify_candidate (model : Model) (qzm qzv : List Int) : AnnData :=
  { get_minified_adata model.adata with
     obsm := ("_scvi_latent_qzm", qzm) ::
             ("_scvi_latent_qzv", qzv) ::
             (get_minified_adata model.adata).obsm,
     obsNum := ("_scvi_observed_lib_size",
                rowSums (countsOf model.adataManager.registry model.adata)) ::
               (get_minified_adata model.adata).obsNum }

/-- Modelled from the spec: `minify(model_instance, summary_fields)` (spec
section 4.5; scvi-tools `SCVI.minify_adata`, called but not defined in
src/hub/minification.ipynb).  Reads the caller-attached posterior mean and
variance from `obsm` (failing if absent), builds the minified candidate
dataset (`minify_candidate`), re-registers it through the validation
protocol (assigning a new dataset identity and a new Manager), registers
the minification fields on the new manager, and swaps the model's bound
dataset to the new minified dataset. -/
def minify_adata (model : Model) (s : ManagerStore) :
    Except ScviError (Model × ManagerStore) :=
  match alookup "X_latent_qzm" model.adata.obsm with
  | none => .error (.missingRequiredField "X_latent_qzm")
  | some qzm =>
    match alookup "X_latent_qzv" model.adata.obsm with
    | none => .error (.missingRequiredField "X_latent_qzv")
    | some qzv =>
      match validate_dataset model (some (minify_candidate model qzm qzv)) s with
      | .error e => .error e
      | .ok (adata', m, s', _) =>
        match processFields none adata' minificationFields with
        | .error e => .error e
        | .ok nr =>
          .ok ({ model with
                  adata := adata',
                  adataManager :=
                    { m with
                       registry := { m.registry with
                                      fields := m.registry.fields ++ minificationFields },
                       summaries := m.summaries ++ nr.1 } },
               associate_instance model
                 { m with
                    registry := { m.registry with
                                   fields := m.registry.fields ++ minificationFields },
                    summaries := m.summaries ++ nr.1 }
                 (register_manager model.classId
                   { m with
                      registry := { m.registry with
                                     fields := m.registry.fields ++ minificationFields },
                      summaries := m.summaries ++ nr.1 } s'))

/-- The persisted state of a saved model: the model attributes, the
Manager (its Registry construction arguments and field summaries) and the
saved dataset, including its minification marker (spec section 6). -/
structure SavedModel where
  classId : Nat
  weights : Nat
  isTrained : Bool
  minifiedModeCapable : Bool
  manager : Manager
  adata : AnnData
deriving DecidableEq

/-- Modelled from the spec: `save` with `save_anndata` — serializes the
Manager's Registry arguments and field summaries alongside the dataset
(spec section 6; `model.save(dir, save_anndata=True)` in both notebooks). -/
def save (model : Model) : SavedModel :=
  ⟨model.classId, model.weights, model.isTrained, model.minifiedModeCapable,
   model.adataManager, model.adata⟩

/-- Modelled from the spec: `load` (spec section 6; `SCVI.load` is called
but not defined in the notebooks).  Uses the provided dataset, else the
saved one; rebuilds the field list from the persisted Registry construction
arguments, appending the minification fields when the dataset carries a
minification marker; transfers the persisted field state onto the dataset
(a reserved field whose state the persisted Registry does not contain fails
with the mismatch error naming the missing expected key, as demonstrated by
the `KeyError: state_registry` output in src/hub/minification.ipynb);
rejects a minified dataset when the saved model is not minified-mode
capable; and returns the reconstructed model bound to the re-registered
dataset. -/
def load (sv : SavedModel) (adataOpt : Option AnnData) (iid : Nat)
    (s : ManagerStore) : Except ScviError (Model × ManagerStore) :=
  match register_fields
          ⟨setupFields sv.manager.registry.batch_key sv.manager.registry.layer
             (adataOpt.getD sv.adata),
           sv.manager.registry.batch_key, sv.manager.registry.layer⟩
          (some sv.manager) (adataOpt.getD sv.adata) s.nextId (s.nextId + 1) with
  | .error e => .error e
  | .ok (m, adata') =>
    if is_minified adata' && !sv.minifiedModeCapable then
      .error .unsupportedMinifiedData
    else
      .ok (⟨sv.classId, iid, adata', m, sv.isTrained, sv.minifiedModeCapable, sv.weights⟩,
           associate_instance
             ⟨sv.classId, iid, adata', m, sv.isTrained, sv.minifiedModeCapable, sv.weights⟩
             m (register_manager sv.classId m { s with nextId := s.nextId + 2 }))

/-- The model's reported minified data type: the value of the minification
marker stored on its bound dataset (scvi-tools `minified_data_type`
property, whose read-through behaviour src/hub/minification.ipynb
demonstrates by comparing it with `adata.uns` and the `_is_minified`
utility). -/
def minified_data_type (model : Model) : Option String :=
  model.adata.minifyType.join

/-- Trace of the observable steps `get_latent_representation` performs
after its trained-guard: validating the dataset and reading registered
data through the dataloader. -/
inductive Step where
  | validated
  | readData
deriving DecidableEq

/-- `get_latent_representation` from src/unnamed/part_000: raises
`RuntimeError("Please train the model first.")` when `is_trained_` is
false, otherwise validates the dataset, builds a dataloader over the
registered data and feeds it to the module (an opaque numerical black box,
passed here as the function `net`).  The result carries the possibly
updated store and the trace of steps performed. -/
def get_latent_representation (net : List Nat → List Int) (model : Model)
    (adataOpt : Option AnnData) (s : ManagerStore) :
    Except ScviError (List Int) × ManagerStore × List Step :=
  if model.isTrained = false then
    (.error (.runtimeNotTrained "Please train the model first."), s, [])
  else
    match validate_dataset model adataOpt s with
    | .error e => (.error e, s, [.validated])
    | .ok (adata, _, s', _) =>
      (.ok (net ((alookup "_scvi_batch" adata.obsDerived).getD [])), s',
       [.validated, .readData])

/-- Observer: the log events of a successful validation result. -/
def resultLog :
    Except ScviError (AnnData × Manager × ManagerStore × List LogEvent) →
    Option (List LogEvent)
  | .ok r => some r.2.2.2
  | .error _ => none

/-- Observer: the reserved `_scvi_batch` codes stored on the dataset of a
successful validation result. -/
def resultBatchCodes :
    Except ScviError (AnnData × Manager × ManagerStore × List LogEvent) →
    Option (List Nat)
  | .ok r => alookup "_scvi_batch" r.1.obsDerived
  | .error _ => none

/-! Concrete instances used as witnesses: a small dataset shaped like the
`synthetic_iid` data of src/unnamed/part_000 (a categorical `batch` column
with values `batch_0` / `batch_1`), registered with the SCVI fields. -/

/-- A small counts layer (4 observations, 2 variables). -/
def exCounts : Payload := ⟨4, 2, [(0, 0, 5), (0, 1, 1), (1, 1, 3), (2, 0, 2), (3, 1, 7)]⟩

/-- A small unregistered dataset with a two-category `batch` column. -/
def exAdata : AnnData :=
  { n_obs := 4, n_vars := 2,
    X := ⟨4, 2, [(0, 0, 1), (1, 1, 1), (2, 0, 1), (3, 1, 2)]⟩,
    layers := [("counts", exCounts)],
    raw := some ⟨4, 2, [(0, 0, 5)]⟩,
    obsCat := [("batch", ["batch_0", "batch_0", "batch_1", "batch_1"])],
    obsDerived := [], obsNum := [], obsm := [],
    scviUUID := none, managerUUID := none, minifyType := none }

/-- An empty manager store. -/
def exStore0 : ManagerStore := ⟨[], [], 0⟩

/-- Fallback values so that results of the example pipeline can be
projected without partial functions. -/
def exFallback : AnnData × Manager × ManagerStore :=
  ⟨exAdata, ⟨0, 0, ⟨[], none, none⟩, [], 0⟩, exStore0⟩

/-- The example dataset registered under model class 100 with
`batch_key="batch"` and `layer="counts"`. -/
def exSetup : AnnData × Manager × ManagerStore :=
  match setup_anndata 100 (some "batch") (some "counts") exAdata exStore0 with
  | .ok r => r
  | .error _ => exFallback

/-- A trained, minified-mode capable model bound to the registered example
dataset, with the caller-computed posterior mean and variance attached. -/
def exModelT : Model :=
  { classId := 100, instanceId := 50,
    adata := { exSetup.1 with
                obsm := [("X_latent_qzm", [10, 11, 12, 13]),
                         ("X_latent_qzv", [1, 1, 2, 2])] },
    adataManager := exSetup.2.1,
    isTrained := true, minifiedModeCapable := true, weights := 7 }

/-- The store after the example setup. -/
def exStore1 : ManagerStore := exSetup.2.2

/-- The example model and store after minification. -/
def exMinify : Model × ManagerStore :=
  match minify_adata exModelT exStore1 with
  | .ok r => r
  | .error _ => (exModelT, exStore1)

/-- The minified example model. -/
def exMinModel : Model := exMinify.1

/-- The store after the example minification. -/
def exMinStore : ManagerStore := exMinify.2

/-- The example minified model saved and loaded back. -/
def exRoundTrip : Model × ManagerStore :=
  match load (save exMinModel) none 51 exMinStore with
  | .ok r => r
  | .error _ => (exMinModel, exMinStore)

/-- A second registration of the already-registered example dataset under
the same model class with `batch_key=None` (no batch correction), as in
src/unnamed/part_000: it overwrites the reserved derived columns and
restamps the manager identifier, clobbering the first model's encoding. -/
def exSetup2 : AnnData × Manager × ManagerStore :=
  match setup_anndata 100 none (some "counts") exSetup.1 exSetup.2.2 with
  | .ok r => r
  | .error _ => exFallback

/-- The store of the clobbering scenario, with the first model's manager
recorded in the per-instance index for (instance 50, dataset identity 1). -/
def exStoreC1 : ManagerStore :=
  { exSetup2.2.2 with instanceIdx := [((50, 1), exSetup.2.1)] }

/-- The first model as it stands in the clobbering scenario. -/
def exModelC1 : Model :=
  { classId := 100, instanceId := 50,
    adata := exSetup.1, adataManager := exSetup.2.1,
    isTrained := true, minifiedModeCapable := true, weights := 7 }

/-- A candidate dataset that was never registered: same structure, but its
`batch` column only contains the second training category. -/
def exCand : AnnData :=
  { exAdata with obsCat := [("batch", ["batch_1", "batch_1", "batch_1", "batch_1"])] }

/-- A candidate dataset introducing a category value never seen at
registration time. -/
def exCandBad : AnnData :=
  { exAdata with obsCat := [("batch", ["batch_0", "batch_2", "batch_1", "batch_1"])] }

/-- An untrained model over the example dataset. -/
def exModelUntrained : Model := { exModelT with isTrained := false }

/-- The example dataset registered under model class 101 with
`batch_key="batch"` and no layer argument (counts taken from `X`). -/
def exSetupNoLayer : AnnData × Manager × ManagerStore :=
  match setup_anndata 101 (some "batch") none exAdata exStore0 with
  | .ok r => r
  | .error _ => exFallback

/-- A trained model over the layer-free registration. -/
def exModelNL : Model :=
  { classId := 101, instanceId := 60,
    adata := exSetupNoLayer.1, adataManager := exSetupNoLayer.2.1,
    isTrained := true, minifiedModeCapable := true, weights := 3 }

/-! Helper lemmas about the encoding and registration machinery. -/

theorem idxOf_eq_none_iff {mapping : List String} {v : String} :
    idxOf mapping v = none ↔ v ∉ mapping := by
  induction mapping with
  | nil => simp [idxOf]
  | cons a rest ih =>
    by_cases hav : a = v
    · subst hav
      simp [idxOf]
    · simp [idxOf, hav, ih, Ne.symm hav]

theorem idxOf_isSome_of_mem {mapping : List String} {v : String} (h : v ∈ mapping) :
    (idxOf mapping v).isSome := by
  cases hi : idxOf mapping v with
  | none => exact absurd h (idxOf_eq_none_iff.mp hi)
  | some c => rfl

theorem encodeWith_ok_of_subset {mapping : List String} {vals : List String}
    (h : ∀ v ∈ vals, v ∈ mapping) :
    encodeWith mapping vals = .ok (vals.map (codeOf mapping)) := by
  induction vals with
  | nil => rfl
  | cons v vs ih =>
    have hv : (idxOf mapping v).isSome := idxOf_isSome_of_mem (h v (by simp))
    cases hi : idxOf mapping v with
    | none => rw [hi] at hv; simp at hv
    | some c =>
      have hrest : encodeWith mapping vs = .ok (vs.map (codeOf mapping)) :=
        ih (fun w hw => h w (by simp [hw]))
      simp [encodeWith, hi, hrest, codeOf]

theorem encodeWith_error_of_unseen {mapping : List String} {vals : List String}
    {v : String} (hv : v ∈ vals) (hnm : v ∉ mapping) :
    ∃ w, w ∉ mapping ∧ encodeWith mapping vals = .error (.unseenCategory w) := by
  induction vals with
  | nil => simp at hv
  | cons u us ih =>
    cases hu : idxOf mapping u with
    | none =>
      exact ⟨u, idxOf_eq_none_iff.mp hu, by simp [encodeWith, hu]⟩
    | some c =>
      have humem : u ∈ mapping := by
        by_contra hnotu
        rw [idxOf_eq_none_iff.mpr hnotu] at hu
        exact Option.noConfusion hu
      have hvus : v ∈ us := by
        rcases List.mem_cons.mp hv with h | h
        · exact absurd (h ▸ humem) hnm
        · exact h
      obtain ⟨w, hw, he⟩ := ih hvus
      exact ⟨w, hw, by simp [encodeWith, hu, he]⟩

theorem encodeWith_replicate_zero (n : Nat) :
    encodeWith ["0"] (List.replicate n "0") = .ok (List.replicate n 0) := by
  induction n with
  | zero => rfl
  | succ k ih => simp [List.replicate_succ, encodeWith, idxOf, ih]

theorem processFields_append (src : Option Manager) (adata : AnnData)
    (fs gs : List FieldDescriptor) :
    processFields src adata (fs ++ gs) =
      match processFields src adata fs with
      | .error e => .error e
      | .ok p =>
        match processFields src adata gs with
        | .error e => .error e
        | .ok q => .ok (p.1 ++ q.1, p.2 ++ q.2) := by
  induction fs with
  | nil =>
    cases hg : processFields src adata gs with
    | error e => simp [processFields, hg]
    | ok q => simp [processFields, hg]
  | cons f fs ih =>
    cases hf : processField src adata f with
    | error e => simp [processFields, hf]
    | ok r =>
      cases hfs : processFields src adata fs with
      | error e => simp [processFields, hf, hfs, ih]
      | ok p =>
        cases hg : processFields src adata gs with
        | error e => simp [processFields, hf, hfs, hg, ih]
        | ok q => simp [processFields, hf, hfs, hg, ih]

theorem register_fields_ok {reg : Registry} {src : Option Manager} {adata : AnnData}
    {mid duid : Nat} {m : Manager} {a' : AnnData}
    (h : register_fields reg src adata mid duid = .ok (m, a')) :
    varCountOk src adata = true ∧
    ∃ pr, processFields src adata reg.fields = .ok pr ∧
      m = ⟨mid, adata.scviUUID.getD duid, reg, pr.1, adata.n_vars⟩ ∧
      a' = { adata with
              obsDerived := pr.2,
              scviUUID := some (adata.scviUUID.getD duid),
              managerUUID := some mid } := by
  by_cases hvc : varCountOk src adata = true
  · rw [register_fields, if_pos hvc] at h
    cases hp : processFields src adata reg.fields with
    | error e => rw [hp] at h; exact Except.noConfusion h
    | ok pr =>
      rw [hp] at h
      obtain ⟨hm, ha⟩ := Prod.mk.injEq .. ▸ Except.ok.inj h
      exact ⟨hvc, pr, rfl, hm.symm, ha.symm⟩
  · rw [register_fields, if_neg hvc] at h
    exact Except.noConfusion h

theorem validate_dataset_eq_transfer {model : Model} {adata : AnnData}
    {s : ManagerStore} (h0 : adata.scviUUID = none) :
    validate_dataset model (some adata) s = validate_transfer model adata s := by
  rw [validate_dataset, h0]

theorem validate_transfer_ok {model : Model} {adata : AnnData} {s : ManagerStore}
    {adata' : AnnData} {m : Manager} {s' : ManagerStore} {log : List LogEvent}
    (h : validate_transfer model adata s = .ok (adata', m, s', log)) :
    register_fields model.adataManager.registry (some model.adataManager) adata
        s.nextId (s.nextId + 1) = .ok (m, adata') ∧
    check_minified model adata' = .ok () ∧
    s' = associate_instance model m
           (register_manager model.classId m { s with nextId := s.nextId + 2 }) ∧
    log = [.infoTransfer] := by
  rw [validate_transfer] at h
  cases hr : register_fields model.adataManager.registry (some model.adataManager) adata
      s.nextId (s.nextId + 1) with
  | error e => rw [hr] at h; exact Except.noConfusion h
  | ok p =>
    obtain ⟨m0, a0⟩ := p
    rw [hr] at h
    dsimp only at h
    cases hc : check_minified model a0 with
    | error e => rw [hc] at h; exact Except.noConfusion h
    | ok u =>
      rw [hc] at h
      dsimp only at h
      simp only [Except.ok.injEq, Prod.mk.injEq] at h
      obtain ⟨rfl, rfl, rfl, rfl⟩ := h
      exact ⟨rfl, by cases u; exact hc, rfl, rfl⟩

theorem minify_adata_ok {model : Model} {s : ManagerStore} {model' : Model}
    {s' : ManagerStore} (h : minify_adata model s = .ok (model', s')) :
    ∃ qzm qzv pr,
      alookup "X_latent_qzm" model.adata.obsm = some qzm ∧
      alookup "X_latent_qzv" model.adata.obsm = some qzv ∧
      model'.adata =
        { minify_candidate model qzm qzv with
           obsDerived := pr,
           scviUUID := some (s.nextId + 1),
           managerUUID := some s.nextId } ∧
      model'.classId = model.classId ∧
      model'.instanceId = model.instanceId ∧
      model'.isTrained = model.isTrained ∧
      model'.minifiedModeCapable = model.minifiedModeCapable ∧
      model'.weights = model.weights := by
  rw [minify_adata] at h
  cases hq : alookup "X_latent_qzm" model.adata.obsm with
  | none => rw [hq] at h; exact Except.noConfusion h
  | some qzm =>
    rw [hq] at h
    dsimp only at h
    cases hv : alookup "X_latent_qzv" model.adata.obsm with
    | none => rw [hv] at h; exact Except.noConfusion h
    | some qzv =>
      rw [hv] at h
      dsimp only at h
      cases hval : validate_dataset model (some (minify_candidate model qzm qzv)) s with
      | error e => rw [hval] at h; exact Except.noConfusion h
      | ok q =>
        obtain ⟨a', m, s'', log⟩ := q
        rw [hval] at h
        dsimp only at h
        have hval' : validate_transfer model (minify_candidate model qzm qzv) s =
            .ok (a', m, s'', log) := by
          rw [← validate_dataset_eq_transfer
                (rfl : (minify_candidate model qzm qzv).scviUUID = none)]
          exact hval
        obtain ⟨hreg, _hchk, _hs, _hlog⟩ := validate_transfer_ok hval'
        obtain ⟨_hvc, pr0, _hp, _hm, ha⟩ := register_fields_ok hreg
        cases hpf : processFields none a' minificationFields with
        | error e => rw [hpf] at h; exact Except.noConfusion h
        | ok nr =>
          rw [hpf] at h
          dsimp only at h
          simp only [Except.ok.injEq, Prod.mk.injEq] at h
          obtain ⟨hmodel, _hstore⟩ := h
          refine ⟨qzm, qzv, pr0.2, rfl, rfl, ?_, ?_, ?_, ?_, ?_, ?_⟩ <;>
            first
            | (rw [← hmodel]; dsimp only; rw [ha]; try exact rfl)
            | rw [← hmodel]

theorem load_ok_preserves {sv : SavedModel} {adataOpt : Option AnnData} {iid : Nat}
    {s : ManagerStore} {model' : Model} {s' : ManagerStore}
    (h : load sv adataOpt iid s = .ok (model', s')) :
    model'.adata.minifyType = (adataOpt.getD sv.adata).minifyType ∧
    model'.adata.obsm = (adataOpt.getD sv.adata).obsm ∧
    model'.adata.obsNum = (adataOpt.getD sv.adata).obsNum := by
  rw [load] at h
  cases hr : register_fields
      ⟨setupFields sv.manager.registry.batch_key sv.manager.registry.layer
         (adataOpt.getD sv.adata),
       sv.manager.registry.batch_key, sv.manager.registry.layer⟩
      (some sv.manager) (adataOpt.getD sv.adata) s.nextId (s.nextId + 1) with
  | error e => rw [hr] at h; exact Except.noConfusion h
  | ok p =>
    obtain ⟨m, a'⟩ := p
    rw [hr] at h
    dsimp only at h
    obtain ⟨_hvc, pr0, _hp, _hm, ha⟩ := register_fields_ok hr
    by_cases hmin : (is_minified a' && !sv.minifiedModeCapable) = true
    · rw [if_pos hmin] at h; exact Except.noConfusion h
    · rw [if_neg hmin] at h
      simp only [Except.ok.injEq, Prod.mk.injEq] at h
      obtain ⟨hmodel, _hstore⟩ := h
      refine ⟨?_, ?_, ?_⟩ <;> (rw [← hmodel]; dsimp only; rw [ha])

theorem processFields_scvi_transfer
    {mgr : Manager} {cand : AnnData} {mapping : List String} {vals : List String}
    (hbatch : alookup "batch" mgr.summaries = some mapping)
    (hlabels : alookup "labels" mgr.summaries = some ["0"])
    (hX : (alookup "X" mgr.summaries).isSome)
    (hsf : (alookup "size_factor" mgr.summaries).isSome)
    (hcc : (alookup "extra_categorical_covs" mgr.summaries).isSome)
    (hnc : (alookup "extra_continuous_covs" mgr.summaries).isSome)
    (hvals : alookup "batch" cand.obsCat = some vals) :
    processFields (some mgr) cand (scviAnndataFields (some "batch") none) =
      match encodeWith mapping vals with
      | .error e => .error e
      | .ok codes =>
        .ok ([("X", []), ("batch", mapping), ("labels", ["0"]), ("size_factor", []),
              ("extra_categorical_covs", []), ("extra_continuous_covs", [])],
             [("_scvi_batch", codes), ("_scvi_labels", List.replicate cand.n_obs 0)]) := by
  obtain ⟨sx, hsx⟩ := Option.isSome_iff_exists.mp hX
  obtain ⟨ssf, hssf⟩ := Option.isSome_iff_exists.mp hsf
  obtain ⟨scc, hscc⟩ := Option.isSome_iff_exists.mp hcc
  obtain ⟨snc, hsnc⟩ := Option.isSome_iff_exists.mp hnc
  cases he : encodeWith mapping vals with
  | error e =>
    simp [scviAnndataFields, processFields, processField, hbatch, hlabels,
          hsx, hssf, hscc, hsnc, hvals, he]
  | ok codes =>
    simp [scviAnndataFields, processFields, processField, hbatch, hlabels,
          hsx, hssf, hscc, hsnc, hvals, he, encodeWith_replicate_zero]

/-! The claims. -/

/-- C7: for every valid (Registry, dataset) pair, performing register
(producing a Manager, stored under the dataset's identity for the model
class) and then get_from_registry on the same dataset and model class
returns the very Manager that register produced — in particular one with
the same identity. -/
theorem c7_register_then_get (reg : Registry) (adata adata' : AnnData)
    (m : Manager) (mid duid classId : Nat) (s : ManagerStore)
    (h : register_fields reg none adata mid duid = .ok (m, adata')) :
    get_from_registry classId (register_manager classId m s) adata' = .ok m ∧
    (get_from_registry classId (register_manager classId m s) adata').map
      Manager.id = .ok m.id := by
  obtain ⟨_hvc, pr, _hp, hm, ha⟩ := register_fields_ok h
  subst hm
  subst ha
  refine ⟨?_, ?_⟩ <;> simp [get_from_registry, register_manager, alookup, Except.map]

/-- Witness for C7 at the concrete example registration. -/
theorem c7_witness :
    register_fields ⟨scviAnndataFields (some "batch") (some "counts"),
        some "batch", some "counts"⟩ none exAdata 0 1 = .ok (exSetup.2.1, exSetup.1) ∧
    get_from_registry 100 (register_manager 100 exSetup.2.1 exStore0) exSetup.1 =
      .ok exSetup.2.1 :=
  ⟨rfl,
   (c7_register_then_get ⟨scviAnndataFields (some "batch") (some "counts"),
      some "batch", some "counts"⟩ exAdata exSetup.1 exSetup.2.1 0 1 100 exStore0 rfl).1⟩

/-- C9: for every model instance whose trained flag is false,
get_latent_representation raises the runtime error with message "Please
train the model first." before validating the dataset or reading any data
(the step trace is empty), and the store is returned unchanged. -/
theorem c9_untrained_runtime_error (net : List Nat → List Int) (model : Model)
    (adataOpt : Option AnnData) (s : ManagerStore)
    (h : model.isTrained = false) :
    get_latent_representation net model adataOpt s =
      (.error (.runtimeNotTrained "Please train the model first."), s, []) := by
  rw [get_latent_representation, if_pos h]

/-- Witness for C9 at a concrete untrained model. -/
theorem c9_witness :
    exModelUntrained.isTrained = false ∧
    get_latent_representation (fun _ => [9]) exModelUntrained none exStore1 =
      (.error (.runtimeNotTrained "Please train the model first."), exStore1, []) :=
  ⟨rfl, c9_untrained_runtime_error (fun _ => [9]) exModelUntrained none exStore1 rfl⟩

/-- C10: the model's reported minified-data-type always equals the value of
the dataset-local minification marker of its bound dataset; the is-minified
predicate holds exactly when the marker is present and non-none; and the
agreement is preserved by minify (which moreover makes the new bound
dataset minified with the latent-posterior-parameters type) and by load. -/
theorem c10_minified_marker_agreement :
    (∀ model : Model, minified_data_type model = model.adata.minifyType.join) ∧
    (∀ adata : AnnData, is_minified adata = true ↔ ∃ t, adata.minifyType = some (some t)) ∧
    (∀ (model : Model) (s : ManagerStore) (model' : Model) (s' : ManagerStore),
       minify_adata model s = .ok (model', s') →
         minified_data_type model' = model'.adata.minifyType.join ∧
         is_minified model'.adata = true ∧
         minified_data_type model' = some "latent_posterior_parameters") ∧
    (∀ (sv : SavedModel) (adataOpt : Option AnnData) (iid : Nat) (s : ManagerStore)
       (model' : Model) (s' : ManagerStore),
       load sv adataOpt iid s = .ok (model', s') →
         minified_data_type model' = model'.adata.minifyType.join) := by
  refine ⟨fun model => rfl, ?_, ?_, fun sv adataOpt iid s model' s' _ => rfl⟩
  · intro adata
    rcases hmt : adata.minifyType with _ | mt
    · simp [is_minified, hmt]
    · rcases mt with _ | t <;> simp [is_minified, hmt]
  · intro model s model' s' h
    obtain ⟨qzm, qzv, pr, _hq, _hv, ha, _⟩ := minify_adata_ok h
    refine ⟨rfl, ?_, ?_⟩ <;>
      simp [is_minified, minified_data_type, ha, minify_candidate, get_minified_adata]

/-- Witness for C10 at the concrete minified example model. -/
theorem c10_witness :
    minified_data_type exMinModel = exMinModel.adata.minifyType.join ∧
    is_minified exMinModel.adata = true ∧
    minified_data_type exMinModel = some "latent_posterior_parameters" :=
  c10_minified_marker_agreement.2.2.1 exModelT exStore1 exMinModel exMinStore rfl

/-- C1: if a candidate dataset carries a dataset identity and a stamped
manager identifier, and the stamped identifier does not match the
identifier of the Manager retrieved from the store for that dataset under
the model's class, then validate_dataset replays registration — it re-runs
the stored Registry's field descriptors, restamps the dataset and stores a
fresh Manager (in both store indices) — and on return the dataset's
reserved derived columns are exactly those produced by the Manager it
returns. -/
theorem c1_replay_on_manager_mismatch
    (model : Model) (s : ManagerStore) (adata : AnnData) (u mm : Nat)
    (mgr m' : Manager) (adata' : AnnData)
    (h1 : adata.scviUUID = some u)
    (h2 : adata.managerUUID = some mm)
    (h3 : alookup (model.instanceId, u) s.instanceIdx = some mgr)
    (h4 : mm ≠ mgr.id)
    (h5 : register_fields mgr.registry (some mgr) adata s.nextId (s.nextId + 1) =
            .ok (m', adata'))
    (h6 : check_minified model adata' = .ok ()) :
    validate_dataset model (some adata) s =
      .ok (adata', m',
           associate_instance model m'
             (register_manager model.classId m' { s with nextId := s.nextId + 2 }),
           []) ∧
    m'.id = s.nextId ∧
    m'.registry = mgr.registry ∧
    adata'.scviUUID = some u ∧
    adata'.managerUUID = some m'.id ∧
    alookup (model.classId, u)
      (associate_instance model m'
        (register_manager model.classId m'
          { s with nextId := s.nextId + 2 })).globalIdx = some m' ∧
    alookup (model.instanceId, u)
      (associate_instance model m'
        (register_manager model.classId m'
          { s with nextId := s.nextId + 2 })).instanceIdx = some m' ∧
    ∃ pr, processFields (some mgr) adata mgr.registry.fields = .ok pr ∧
      m'.summaries = pr.1 ∧ adata'.obsDerived = pr.2 := by
  obtain ⟨_hvc, pr, hp, hm, ha⟩ := register_fields_ok h5
  have huuid : m'.adataUUID = u := by rw [hm]; simp [h1]
  refine ⟨?_, ?_, ?_, ?_, ?_, ?_, ?_, pr, hp, ?_, ?_⟩
  · rw [validate_dataset, h1]
    dsimp only
    rw [h3]
    dsimp only
    rw [h2, if_neg (by simp [h4]), h5]
    dsimp only
    rw [h6]
  · rw [hm]
  · rw [hm]
  · rw [ha]; simp [h1]
  · rw [ha, hm]
  · simp [associate_instance, register_manager, alookup, huuid]
  · simp [associate_instance, register_manager, alookup, huuid]
  · rw [hm]
  · rw [ha]

/-- The result of the concrete replay scenario: the first model
re-validating the shared dataset after a second registration overwrote its
reserved derived columns. -/
def exReplay : AnnData × Manager × ManagerStore × List LogEvent :=
  match validate_dataset exModelC1 (some exSetup2.1) exStoreC1 with
  | .ok r => r
  | .error _ => (exSetup2.1, exSetup.2.1, exStoreC1, [])

/-- Witness for C1 at the concrete clobbering scenario. -/
theorem c1_witness :
    exSetup2.1.scviUUID = some 1 ∧
    exSetup2.1.managerUUID = some 2 ∧
    (2 : Nat) ≠ exSetup.2.1.id ∧
    exReplay.1.managerUUID = some exReplay.2.1.id :=
  ⟨rfl, rfl, by decide,
   (c1_replay_on_manager_mismatch exModelC1 exStoreC1 exSetup2.1 1 2 exSetup.2.1
      exReplay.2.1 exReplay.1 rfl rfl rfl (by decide) rfl rfl).2.2.2.2.1⟩

/-- C6: for a candidate dataset carrying no dataset identity and no manager
identifier that is structurally compatible with the model's schema,
validate_dataset performs automatic registration using the model's original
Registry, emits the informational transfer log event (returning
successfully, not an error), returns a usable Manager, and stamps the
dataset with fresh dataset-identity and manager-identifier metadata (the
next two identifiers supplied by the store). -/
theorem c6_auto_transfer
    (model : Model) (s : ManagerStore) (cand : AnnData)
    (m : Manager) (adata' : AnnData)
    (h0 : cand.scviUUID = none)
    (_h1 : cand.managerUUID = none)
    (h5 : register_fields model.adataManager.registry (some model.adataManager)
            cand s.nextId (s.nextId + 1) = .ok (m, adata'))
    (h6 : check_minified model adata' = .ok ()) :
    validate_dataset model (some cand) s =
      .ok (adata', m,
           associate_instance model m
             (register_manager model.classId m { s with nextId := s.nextId + 2 }),
           [.infoTransfer]) ∧
    m.registry = model.adataManager.registry ∧
    m.id = s.nextId ∧
    m.adataUUID = s.nextId + 1 ∧
    adata'.scviUUID = some (s.nextId + 1) ∧
    adata'.managerUUID = some m.id := by
  obtain ⟨_hvc, pr, _hp, hm, ha⟩ := register_fields_ok h5
  refine ⟨?_, ?_, ?_, ?_, ?_, ?_⟩
  · rw [validate_dataset_eq_transfer h0, validate_transfer, h5]
    dsimp only
    rw [h6]
  · rw [hm]
  · rw [hm]
  · rw [hm]; simp [h0]
  · rw [ha]; simp [h0]
  · rw [ha, hm]

/-- The result of the concrete transfer scenario: validating a dataset that
was never registered. -/
def exTransfer : AnnData × Manager × ManagerStore × List LogEvent :=
  match validate_dataset exModelC1 (some exCand) exStoreC1 with
  | .ok r => r
  | .error _ => (exCand, exSetup.2.1, exStoreC1, [])

/-- Witness for C6 at the concrete never-registered candidate. -/
theorem c6_witness :
    exCand.scviUUID = none ∧
    exCand.managerUUID = none ∧
    exTransfer.1.scviUUID = some (exStoreC1.nextId + 1) ∧
    exTransfer.1.managerUUID = some exTransfer.2.1.id :=
  ⟨rfl, rfl,
   (c6_auto_transfer exModelC1 exStoreC1 exCand exTransfer.2.1 exTransfer.1
      rfl rfl rfl rfl).2.2.2.2.1,
   (c6_auto_transfer exModelC1 exStoreC1 exCand exTransfer.2.1 exTransfer.1
      rfl rfl rfl rfl).2.2.2.2.2⟩

/-- C2: for a trained registration whose categorical `batch` field carries
the original category-to-code `mapping`, validating a never-registered
candidate dataset whose `batch` values all belong to the original
categories succeeds and encodes each observation with the code the original
mapping assigns to its value (not codes freshly inferred from the
candidate); a candidate containing a category value absent from the
original mapping fails with `UnseenCategoryError`. -/
theorem c2_category_subset_and_unseen
    (model : Model) (s : ManagerStore) (cand : AnnData)
    (mapping : List String) (vals : List String)
    (hfields : model.adataManager.registry.fields = scviAnndataFields (some "batch") none)
    (hbatch : alookup "batch" model.adataManager.summaries = some mapping)
    (hlabels : alookup "labels" model.adataManager.summaries = some ["0"])
    (hX : (alookup "X" model.adataManager.summaries).isSome)
    (hsf : (alookup "size_factor" model.adataManager.summaries).isSome)
    (hcc : (alookup "extra_categorical_covs" model.adataManager.summaries).isSome)
    (hnc : (alookup "extra_continuous_covs" model.adataManager.summaries).isSome)
    (hvars : model.adataManager.nVars = cand.n_vars)
    (huuid : cand.scviUUID = none)
    (hvals : alookup "batch" cand.obsCat = some vals)
    (hnmin : is_minified cand = false) :
    ((∀ v ∈ vals, v ∈ mapping) →
      resultLog (validate_dataset model (some cand) s) = some [.infoTransfer] ∧
      resultBatchCodes (validate_dataset model (some cand) s) =
        some (vals.map (codeOf mapping))) ∧
    ((∃ v ∈ vals, v ∉ mapping) →
      ∃ w, w ∉ mapping ∧
        validate_dataset model (some cand) s = .error (.unseenCategory w)) := by
  have hpf := processFields_scvi_transfer hbatch hlabels hX hsf hcc hnc hvals
  have hvc : varCountOk (some model.adataManager) cand = true := by
    simp [varCountOk, hvars]
  constructor
  · intro hsub
    have henc := encodeWith_ok_of_subset hsub
    rw [henc] at hpf
    dsimp only at hpf
    rw [validate_dataset_eq_transfer huuid, validate_transfer, register_fields,
        if_pos hvc, hfields, hpf]
    dsimp only
    rcases hmt : cand.minifyType with _ | mt
    · simp [check_minified, is_minified, hmt, resultLog, resultBatchCodes, alookup]
    · rcases mt with _ | t
      · simp [check_minified, is_minified, hmt, resultLog, resultBatchCodes, alookup]
      · rw [is_minified, hmt] at hnmin; simp at hnmin
  · rintro ⟨v, hvmem, hvnm⟩
    obtain ⟨w, hwnm, hew⟩ := encodeWith_error_of_unseen hvmem hvnm
    rw [hew] at hpf
    dsimp only at hpf
    refine ⟨w, hwnm, ?_⟩
    rw [validate_dataset_eq_transfer huuid, validate_transfer, register_fields,
        if_pos hvc, hfields, hpf]

/-- Witness for C2: the spec's concrete scenario — training categories
`batch_0`, `batch_1` (codes 0, 1 in first-seen order); a candidate with
only `batch_1` encodes every observation to code 1 under the original
mapping; a candidate containing `batch_2` fails with the unseen-category
error. -/
theorem c2_witness :
    (∀ v ∈ ["batch_1", "batch_1", "batch_1", "batch_1"],
       v ∈ ["batch_0", "batch_1"]) ∧
    resultBatchCodes
      (validate_dataset exModelNL (some exCand) exSetupNoLayer.2.2) =
      some [1, 1, 1, 1] ∧
    (∃ w, w ∉ ["batch_0", "batch_1"] ∧
      validate_dataset exModelNL (some exCandBad) exSetupNoLayer.2.2 =
        .error (.unseenCategory w)) :=
  ⟨by decide,
   ((c2_category_subset_and_unseen exModelNL exSetupNoLayer.2.2 exCand
       ["batch_0", "batch_1"] ["batch_1", "batch_1", "batch_1", "batch_1"]
       rfl rfl rfl rfl rfl rfl rfl rfl rfl rfl rfl).1 (by decide)).2,
   (c2_category_subset_and_unseen exModelNL exSetupNoLayer.2.2 exCandBad
       ["batch_0", "batch_1"] ["batch_0", "batch_2", "batch_1", "batch_1"]
       rfl rfl rfl rfl rfl rfl rfl rfl rfl rfl rfl).2
     ⟨"batch_2", by decide, by decide⟩⟩

/-- C3: loading a model whose persisted Registry does not include the
minification-related reserved fields against a minified dataset (marker
non-none) fails with the schema-mismatch error naming the missing expected
key `state_registry` — provided the transfer of the base fields itself
succeeds, which is the situation of the notebook's demonstration. -/
theorem c3_load_minified_schema_mismatch
    (sv : SavedModel) (adata : AnnData) (iid : Nat) (s : ManagerStore)
    (pr : List (String × List String) × List (String × List Nat))
    (hmin : is_minified adata = true)
    (hstate : alookup "latent_qzm" sv.manager.summaries = none)
    (hbase : processFields (some sv.manager) adata
       (scviAnndataFields sv.manager.registry.batch_key sv.manager.registry.layer) =
       .ok pr)
    (hvars : sv.manager.nVars = adata.n_vars) :
    load sv (some adata) iid s = .error (.schemaMismatch "state_registry") := by
  have hvc : varCountOk (some sv.manager) adata = true := by simp [varCountOk, hvars]
  rw [load]
  dsimp only [Option.getD]
  rw [register_fields, if_pos hvc]
  try dsimp only
  rw [setupFields, hmin]
  try dsimp only
  rw [processFields_append, hbase]
  try dsimp only
  rw [if_pos (rfl : true = true)]
  rw [show processFields (some sv.manager) adata minificationFields =
        .error (.schemaMismatch "state_registry") from by
      simp [processFields, processField, minificationFields, hstate]]

/-- Witness for C3 at the concrete scenario of the notebook: the save of
the non-minified example model loaded against the minified dataset. -/
theorem c3_witness :
    is_minified exMinModel.adata = true ∧
    alookup "latent_qzm" (save exModelT).manager.summaries = none ∧
    load (save exModelT) (some exMinModel.adata) 52 exMinStore =
      .error (.schemaMismatch "state_registry") :=
  ⟨rfl, rfl,
   c3_load_minified_schema_mismatch (save exModelT) exMinModel.adata 52 exMinStore
     ([("X", []), ("batch", ["batch_0", "batch_1"]), ("labels", ["0"]),
       ("size_factor", []), ("extra_categorical_covs", []),
       ("extra_continuous_covs", [])],
      [("_scvi_batch", [0, 0, 1, 1]), ("_scvi_labels", [0, 0, 0, 0])])
     rfl rfl rfl rfl⟩

/-- C4: minify's frame effect — the model instance's bound dataset
reference is swapped to a new, distinct minified dataset; every other model
attribute is unchanged; and the dataset the caller passed in still reflects
the full state (marker none, not minified).  In this pure embedding the
caller's dataset value is untouched by construction; the distinctness of
the new bound dataset and the preservation of the remaining model fields
are the provable content. -/
theorem c4_minify_frame (model : Model) (s : ManagerStore)
    (model' : Model) (s' : ManagerStore)
    (hfull : model.adata.minifyType = none)
    (h : minify_adata model s = .ok (model', s')) :
    model'.adata ≠ model.adata ∧
    model'.classId = model.classId ∧
    model'.instanceId = model.instanceId ∧
    model'.isTrained = model.isTrained ∧
    model'.minifiedModeCapable = model.minifiedModeCapable ∧
    model'.weights = model.weights ∧
    model.adata.minifyType = none ∧
    is_minified model.adata = false := by
  obtain ⟨qzm, qzv, pr, _hq, _hv, ha, hc1, hc2, hc3, hc4, hc5⟩ := minify_adata_ok h
  refine ⟨?_, hc1, hc2, hc3, hc4, hc5, hfull, by simp [is_minified, hfull]⟩
  intro heq
  have hmt : model'.adata.minifyType = model.adata.minifyType := by rw [heq]
  rw [ha, hfull] at hmt
  simp [minify_candidate, get_minified_adata] at hmt

/-- Witness for C4 at the concrete example minification. -/
theorem c4_witness :
    exModelT.adata.minifyType = none ∧
    exMinModel.adata ≠ exModelT.adata ∧
    exMinModel.weights = exModelT.weights :=
  ⟨rfl,
   (c4_minify_frame exModelT exStore1 exMinModel exMinStore rfl rfl).1,
   (c4_minify_frame exModelT exStore1 exMinModel exMinStore rfl rfl).2.2.2.2.2.1⟩

/-- Counterexample to C5 as stated: the claim says every full-data
layer/alternate view is replaced by a zero-stored-element placeholder of
identical shape, but the `raw` alternate view is removed outright (set to
none) rather than replaced by a placeholder — exactly as the notebook
records (`model.adata.raw is None` evaluates to `True` after
minification). -/
theorem c5_counterexample :
    minify_adata exModelT exStore1 = .ok (exMinModel, exMinStore) ∧
    exModelT.adata.raw = some ⟨4, 2, [(0, 0, 5)]⟩ ∧
    exMinModel.adata.raw = none ∧
    exMinModel.adata.raw ≠ some (emptyLike ⟨4, 2, [(0, 0, 5)]⟩) :=
  ⟨rfl, rfl, rfl, by decide⟩

/-- C5 (amended): the dataset produced by minify has its primary payload
and every full-data layer replaced by a zero-stored-element placeholder of
identical shape (same observation and variable counts), has the `raw`
alternate view removed, carries the caller-computed posterior mean and
variance in the reserved slots, stores the per-observation library-size
cache computed from the original full data, and has its minification
marker set to latent-posterior-parameters. -/
theorem c5_minified_contents (model : Model) (s : ManagerStore)
    (model' : Model) (s' : ManagerStore) (qzm qzv : List Int)
    (hq : alookup "X_latent_qzm" model.adata.obsm = some qzm)
    (hv : alookup "X_latent_qzv" model.adata.obsm = some qzv)
    (h : minify_adata model s = .ok (model', s')) :
    model'.adata.X = emptyLike model.adata.X ∧
    model'.adata.X.storedElements = 0 ∧
    model'.adata.X.rows = model.adata.X.rows ∧
    model'.adata.X.cols = model.adata.X.cols ∧
    model'.adata.layers = model.adata.layers.map (fun p => (p.1, emptyLike p.2)) ∧
    model'.adata.raw = none ∧
    model'.adata.n_obs = model.adata.n_obs ∧
    model'.adata.n_vars = model.adata.n_vars ∧
    alookup "_scvi_latent_qzm" model'.adata.obsm = some qzm ∧
    alookup "_scvi_latent_qzv" model'.adata.obsm = some qzv ∧
    alookup "_scvi_observed_lib_size" model'.adata.obsNum =
      some (rowSums (countsOf model.adataManager.registry model.adata)) ∧
    model'.adata.minifyType = some (some "latent_posterior_parameters") := by
  obtain ⟨qzm0, qzv0, pr, hq0, hv0, ha, _, _, _, _, _⟩ := minify_adata_ok h
  obtain rfl : qzm0 = qzm := Option.some.inj (hq0.symm.trans hq)
  obtain rfl : qzv0 = qzv := Option.some.inj (hv0.symm.trans hv)
  rw [ha]
  refine ⟨rfl, rfl, rfl, rfl, rfl, rfl, rfl, rfl, ?_, ?_, ?_, rfl⟩ <;>
    simp [minify_candidate, get_minified_adata, alookup]

/-- Witness for C5 (amended) at the concrete example minification. -/
theorem c5_witness :
    alookup "X_latent_qzm" exModelT.adata.obsm = some [10, 11, 12, 13] ∧
    exMinModel.adata.raw = none ∧
    alookup "_scvi_latent_qzm" exMinModel.adata.obsm = some [10, 11, 12, 13] ∧
    alookup "_scvi_observed_lib_size" exMinModel.adata.obsNum =
      some (rowSums (countsOf exModelT.adataManager.registry exModelT.adata)) :=
  ⟨rfl,
   (c5_minified_contents exModelT exStore1 exMinModel exMinStore
      [10, 11, 12, 13] [1, 1, 2, 2] rfl rfl rfl).2.2.2.2.2.1,
   (c5_minified_contents exModelT exStore1 exMinModel exMinStore
      [10, 11, 12, 13] [1, 1, 2, 2] rfl rfl rfl).2.2.2.2.2.2.2.2.1,
   (c5_minified_contents exModelT exStore1 exMinModel exMinStore
      [10, 11, 12, 13] [1, 1, 2, 2] rfl rfl rfl).2.2.2.2.2.2.2.2.2.2.1⟩

/-- C8: minify, then save, then load yields a model whose minification
marker equals the pre-save marker and whose cached posterior mean, cached
posterior variance and per-observation library-size fields are bit-identical
to their pre-save values. -/
theorem c8_minify_save_load_roundtrip
    (model : Model) (s s2 : ManagerStore) (m1 m2 : Model)
    (s1 s3 : ManagerStore) (iid : Nat)
    (_hmin : minify_adata model s = .ok (m1, s1))
    (hload : load (save m1) none iid s2 = .ok (m2, s3)) :
    m2.adata.minifyType = m1.adata.minifyType ∧
    minified_data_type m2 = minified_data_type m1 ∧
    alookup "_scvi_latent_qzm" m2.adata.obsm =
      alookup "_scvi_latent_qzm" m1.adata.obsm ∧
    alookup "_scvi_latent_qzv" m2.adata.obsm =
      alookup "_scvi_latent_qzv" m1.adata.obsm ∧
    alookup "_scvi_observed_lib_size" m2.adata.obsNum =
      alookup "_scvi_observed_lib_size" m1.adata.obsNum := by
  obtain ⟨hmt, hobsm, hobsn⟩ := load_ok_preserves hload
  have hgd : (none : Option AnnData).getD (save m1).adata = m1.adata := rfl
  rw [hgd] at hmt hobsm hobsn
  exact ⟨hmt, by rw [minified_data_type, minified_data_type, hmt],
         by rw [hobsm], by rw [hobsm], by rw [hobsn]⟩

/-- Witness for C8 at the concrete example round trip. -/
theorem c8_witness :
    minify_adata exModelT exStore1 = .ok (exMinModel, exMinStore) ∧
    exRoundTrip.1.adata.minifyType = exMinModel.adata.minifyType ∧
    alookup "_scvi_latent_qzm" exRoundTrip.1.adata.obsm =
      alookup "_scvi_latent_qzm" exMinModel.adata.obsm :=
  ⟨rfl,
   (c8_minify_save_load_roundtrip exModelT exStore1 exMinStore exMinModel
      exRoundTrip.1 exMinStore exRoundTrip.2 51 rfl rfl).1,
   (c8_minify_save_load_roundtrip exModelT exStore1 exMinStore exMinModel
      exRoundTrip.1 exMinStore exRoundTrip.2 51 rfl rfl).2.2.1⟩

end Scvi
